import Mathlib

/-!
Shallow embedding of the account service in `src/server.py`:
a single `users` table plus four HTTP handlers (register, login,
profile read/update, logout) and a per-caller session.

Request bodies are modelled as flat association lists of
string keys to optional string values (`none` models JSON null);
`dget` mirrors Python's `dict.get` (absent key gives `None`) and
`hasKey` mirrors `k in data`.  Python truthiness of the extracted
values (`not fio`) is `truthy`.  SQLite rows are records with
`Option String` columns (NULL is `none`); the AUTOINCREMENT id
counter is carried explicitly as `nextId`.  Each handler is a pure
function from the request data and server state to the new state
and a result; `ApiResult.crash` marks the places where the code
raises an unhandled exception: `dict(None)` in the update handler,
and the `sqlite3.IntegrityError` raised when an UPDATE writes a
phone that violates the schema's `phone TEXT UNIQUE` constraint.
-/

namespace S7Airlines

/-- A row of the `users` table created by `init_db` in src/server.py:
id INTEGER PRIMARY KEY AUTOINCREMENT, then seven nullable TEXT columns. -/
structure UserRow where
  id : Nat
  fio : Option String
  phone : Option String
  email : Option String
  cardNumber : Option String
  dob : Option String
  gender : Option String
  avatar : Option String
deriving DecidableEq

/-- The database: the `users` table plus the next AUTOINCREMENT id
(SQLite row ids start at 1, so `nextId` is positive in reachable states). -/
structure DB where
  users : List UserRow
  nextId : Nat
deriving DecidableEq

/-- Server state: the database and the caller's session
(`session["user_id"]`, absent when no session is established). -/
structure ServerState where
  db : DB
  session : Option Nat
deriving DecidableEq

/-- A request body: a flat key-value structure (JSON object or form
data); a value of `none` models JSON null. -/
abbrev ReqData := List (String × Option String)

/-- Python `data.get(k)`: the value of the first pair with key `k`,
`none` when the key is absent (or its value is null). -/
def dget (d : ReqData) (k : String) : Option String :=
  match d.find? (fun p => p.1 == k) with
  | some p => p.2
  | none => none

/-- Python `k in data`. -/
def hasKey (d : ReqData) (k : String) : Bool :=
  d.any (fun p => p.1 == k)

/-- Python truthiness of an optional string: `None` and `""` are falsy. -/
def truthy : Option String → Bool
  | none => false
  | some s => s != ""

/-- Python `x or y` on optional strings. -/
def pyOr (a b : Option String) : Option String :=
  if truthy a then a else b

/-- Result of a handler: a success payload, an error response with an
HTTP status and message, or an unhandled exception (no HTTP error
response of the ordinary shape is produced). -/
inductive ApiResult (α : Type) where
  | ok (v : α)
  | err (status : Nat) (msg : String)
  | crash
deriving DecidableEq

/-- The profile returned by the GET /api/profile and POST /api/profile
handlers: SELECT id,fio,phone,email,cardNumber,dob,gender,avatar. -/
structure Profile where
  id : Nat
  fio : Option String
  phone : Option String
  email : Option String
  cardNumber : Option String
  dob : Option String
  gender : Option String
  avatar : Option String
deriving DecidableEq

/-- Conversion of a selected row to the returned profile dict. -/
def toProfile (u : UserRow) : Profile :=
  ⟨u.id, u.fio, u.phone, u.email, u.cardNumber, u.dob, u.gender, u.avatar⟩

/-- Error message of the missing-fio-or-phone branch (register, login). -/
def validationMsg : String := "fio и phone обязательны"

/-- Error message of the duplicate-phone branch of register. -/
def conflictMsg : String := "Пользователь с таким телефоном уже зарегистрирован"

/-- Error message of the failed-login branch. -/
def authFailMsg : String := "Неверные данные или пользователь не найден"

/-- Error message of the no-session branch (profile read and update). -/
def unauthMsg : String := "Не авторизован"

/-- Error message of the missing-row branch of the profile read. -/
def notFoundMsg : String := "Пользователь не найден"

/-- Error message of the empty-update branch of the profile update. -/
def nothingToUpdateMsg : String := "Нет данных для обновления"

/-- POST /api/register (`api_register` in src/server.py): validates
fio and phone, checks phone uniqueness, inserts a row (avatar not in
the INSERT column list, hence NULL), then clears and rebinds the
session to the fresh row id. -/
def api_register (d : ReqData) (st : ServerState) : ServerState × ApiResult Nat :=
  let fio := dget d "fio"
  let phone := dget d "phone"
  let email := dget d "email"
  let card := pyOr (dget d "cardNumber") (dget d "card")
  let dob := dget d "dob"
  let gender := dget d "gender"
  if !(truthy fio) || !(truthy phone) then (st, .err 400 validationMsg)
  else if st.db.users.any (fun u => u.phone == phone) then
    (st, .err 400 conflictMsg)
  else
    let uid := st.db.nextId
    let row : UserRow := ⟨uid, fio, phone, email, card, dob, gender, none⟩
    (⟨⟨st.db.users ++ [row], uid + 1⟩, some uid⟩, .ok uid)

/-- POST /api/login (`api_login`): validates fio and phone, looks up
the first row whose fio AND phone both equal the supplied strings,
then clears and rebinds the session to that row's id. -/
def api_login (d : ReqData) (st : ServerState) : ServerState × ApiResult Nat :=
  let fio := dget d "fio"
  let phone := dget d "phone"
  if !(truthy fio) || !(truthy phone) then (st, .err 400 validationMsg)
  else
    match st.db.users.find? (fun u => u.fio == fio && u.phone == phone) with
    | none => (st, .err 401 authFailMsg)
    | some row => ({ st with session := some row.id }, .ok row.id)

/-- GET /api/profile (`api_profile`): `if not user_id` is Python
truthiness, so both an absent session and a session holding 0 are
rejected as unauthenticated; then the row is selected by id, with a
404 when it is gone. -/
def api_profile (st : ServerState) : ApiResult Profile :=
  match st.session with
  | none => .err 401 unauthMsg
  | some uid =>
    if uid = 0 then .err 401 unauthMsg
    else
      match st.db.users.find? (fun u => u.id == uid) with
      | none => .err 404 notFoundMsg
      | some row => .ok (toProfile row)

/-- The tuple of recognized update keys iterated by `api_profile_update`. -/
def updKeys : List String := ["fio", "phone", "email", "cardNumber", "dob", "gender", "avatar"]

/-- Whether at least one recognized key is present (`if not fields`). -/
def hasUpdateField (d : ReqData) : Bool :=
  updKeys.any (fun k => hasKey d k)

/-- The effect on one row of the built UPDATE statement: each
recognized key present in the data overwrites its column (a null
value writes NULL); every other column keeps its prior value. -/
def applyUpdate (d : ReqData) (u : UserRow) : UserRow :=
  { u with
    fio := if hasKey d "fio" then dget d "fio" else u.fio,
    phone := if hasKey d "phone" then dget d "phone" else u.phone,
    email := if hasKey d "email" then dget d "email" else u.email,
    cardNumber := if hasKey d "cardNumber" then dget d "cardNumber" else u.cardNumber,
    dob := if hasKey d "dob" then dget d "dob" else u.dob,
    gender := if hasKey d "gender" then dget d "gender" else u.gender,
    avatar := if hasKey d "avatar" then dget d "avatar" else u.avatar }

/-- Whether executing the built UPDATE violates the UNIQUE constraint
on the phone column declared by `init_db` (src/server.py:40): it does
exactly when some targeted row exists (the WHERE clause matched, so a
row is actually rewritten), the statement writes a non-NULL phone,
and a different row (other id) already stores that phone.  SQLite's
UNIQUE admits any number of NULLs, so a null phone never conflicts. -/
def phoneConflict (d : ReqData) (uid : Nat) (users : List UserRow) : Bool :=
  users.any (fun t => t.id == uid) &&
  hasKey d "phone" &&
  (match dget d "phone" with
   | none => false
   | some p => users.any (fun v => v.id != uid && v.phone == some p))

/-- POST /api/profile (`api_profile_update`): session check, build
the field list from the recognized keys, fail when it is empty, then
execute the UPDATE on every row whose id matches.  The execute raises
an unhandled `sqlite3.IntegrityError` (crash, nothing committed) when
the write violates the phone UNIQUE constraint; otherwise the row is
re-SELECTed and converted with `dict(row)` — which raises (crash)
when the SELECT found no row, as there is no 404 branch here. -/
def api_profile_update (d : ReqData) (st : ServerState) : ServerState × ApiResult Profile :=
  match st.session with
  | none => (st, .err 401 unauthMsg)
  | some uid =>
    if uid = 0 then (st, .err 401 unauthMsg)
    else if !(hasUpdateField d) then (st, .err 400 nothingToUpdateMsg)
    else if phoneConflict d uid st.db.users then (st, .crash)
    else
      let users2 := st.db.users.map (fun u => if u.id = uid then applyUpdate d u else u)
      let st2 : ServerState := { st with db := { st.db with users := users2 } }
      match users2.find? (fun u => u.id == uid) with
      | none => (st2, .crash)
      | some row => (st2, .ok (toProfile row))

/-- POST /api/logout (`api_logout`): unconditionally clears the session. -/
def api_logout (st : ServerState) : ServerState × ApiResult Unit :=
  ({ st with session := none }, .ok ())

/-- C9: logout is idempotent and never fails: on every state it
returns ok with the session cleared, a second call leaves the state
unchanged, a subsequent getProfile fails unauthenticated (401), and
the user rows are untouched. -/
theorem logout_spec (st : ServerState) :
    api_logout st = ({ st with session := none }, .ok ()) ∧
    (api_logout st).1.db = st.db ∧
    api_logout (api_logout st).1 = ((api_logout st).1, .ok ()) ∧
    api_profile (api_logout st).1 = .err 401 unauthMsg :=
  ⟨rfl, rfl, rfl, rfl⟩

/-- C4: a register or login call in which fio or phone is missing or
empty (Python-falsy) fails with the ValidationError message and
status 400, leaving the state (rows and session) unchanged. -/
theorem missing_fields_validation (d : ReqData) (st : ServerState)
    (h : truthy (dget d "fio") = false ∨ truthy (dget d "phone") = false) :
    api_register d st = (st, .err 400 validationMsg) ∧
    api_login d st = (st, .err 400 validationMsg) := by
  unfold api_register api_login
  rcases h with h | h <;> simp [h]

/-- Closed witness for C4: registering and logging in with an empty
fio fails validation on a concrete state. -/
theorem missing_fields_validation_witness :
    api_register [("fio", some ""), ("phone", some "+1000")] ⟨⟨[], 1⟩, none⟩ =
      (⟨⟨[], 1⟩, none⟩, .err 400 validationMsg) ∧
    api_login [("fio", some ""), ("phone", some "+1000")] ⟨⟨[], 1⟩, none⟩ =
      (⟨⟨[], 1⟩, none⟩, .err 400 validationMsg) :=
  missing_fields_validation _ _ (Or.inl (by decide))

/-- C1: registering with non-empty fio and phone while no existing
row holds that phone succeeds: exactly one row is appended carrying
the supplied fields (absent optional fields NULL, avatar NULL), the
session is replaced by one bound to the fresh id, and that id is
returned with ok. -/
theorem register_success (d : ReqData) (st : ServerState)
    (hfio : truthy (dget d "fio") = true)
    (hphone : truthy (dget d "phone") = true)
    (hfresh : ∀ u ∈ st.db.users, u.phone ≠ dget d "phone") :
    api_register d st =
      (⟨⟨st.db.users ++
          [⟨st.db.nextId, dget d "fio", dget d "phone", dget d "email",
            pyOr (dget d "cardNumber") (dget d "card"),
            dget d "dob", dget d "gender", none⟩],
          st.db.nextId + 1⟩, some st.db.nextId⟩, .ok st.db.nextId) := by
  have hany : st.db.users.any (fun u => u.phone == dget d "phone") = false := by
    rw [List.any_eq_false]
    intro u hu
    simpa using hfresh u hu
  unfold api_register
  simp [hfio, hphone, hany]

/-- Closed witness for C1: registering a fresh phone on a concrete
one-row state appends exactly the expected row and binds the session. -/
theorem register_success_witness :
    api_register [("fio", some "Bob"), ("phone", some "+2000")]
        ⟨⟨[⟨1, some "Ann Lee", some "+1000", none, none, none, none, none⟩], 2⟩, some 1⟩ =
      (⟨⟨[⟨1, some "Ann Lee", some "+1000", none, none, none, none, none⟩,
          ⟨2, some "Bob", some "+2000", none, none, none, none, none⟩], 3⟩, some 2⟩, .ok 2) :=
  (register_success _ _ (by decide) (by decide) (by decide)).trans (by decide)

/-- Counterexample for C3 as stated: the claim quantifies over every
register call whose phone matches an existing row's phone, but such a
call with a missing fio hits the validation branch first and fails
with the ValidationError message, not the ConflictError one. -/
theorem register_conflict_claim_false :
    ((⟨⟨[⟨1, some "Ann Lee", some "+1000", none, none, none, none, none⟩], 2⟩, none⟩ :
        ServerState).db.users.any
      (fun u => u.phone == dget [("phone", some "+1000")] "phone") = true) ∧
    api_register [("phone", some "+1000")]
        ⟨⟨[⟨1, some "Ann Lee", some "+1000", none, none, none, none, none⟩], 2⟩, none⟩ =
      (⟨⟨[⟨1, some "Ann Lee", some "+1000", none, none, none, none, none⟩], 2⟩, none⟩,
        .err 400 validationMsg) ∧
    validationMsg ≠ conflictMsg := by
  refine ⟨by decide, by decide, ?_⟩
  decide

/-- C3 amended: a register call with non-empty fio and phone whose
phone equals the phone of some existing row fails with the
ConflictError message (status 400) regardless of the other supplied
fields, and the state is returned unchanged (no insert, no row
modification, session untouched). -/
theorem register_conflict (d : ReqData) (st : ServerState)
    (hfio : truthy (dget d "fio") = true)
    (hphone : truthy (dget d "phone") = true)
    (hdup : ∃ u ∈ st.db.users, u.phone = dget d "phone") :
    api_register d st = (st, .err 400 conflictMsg) := by
  have hany : st.db.users.any (fun u => u.phone == dget d "phone") = true := by
    rw [List.any_eq_true]
    obtain ⟨u, hu, he⟩ := hdup
    exact ⟨u, hu, by simpa using he⟩
  unfold api_register
  simp [hfio, hphone, hany]

/-- Closed witness for C3's amended theorem: re-registering the phone
"+1000" with a different name fails with the conflict message and no
state change. -/
theorem register_conflict_witness :
    api_register [("fio", some "Bob"), ("phone", some "+1000")]
        ⟨⟨[⟨1, some "Ann Lee", some "+1000", none, none, none, none, none⟩], 2⟩, none⟩ =
      (⟨⟨[⟨1, some "Ann Lee", some "+1000", none, none, none, none, none⟩], 2⟩, none⟩,
        .err 400 conflictMsg) :=
  register_conflict _ _ (by decide) (by decide)
    ⟨⟨1, some "Ann Lee", some "+1000", none, none, none, none, none⟩, by decide, by decide⟩

/-- C5: a login call with non-empty fio and phone either finds a row
whose stored fio and phone both equal (string equality, hence
case-sensitive) the supplied values — then the session is replaced by
one bound to that row's id and the id is returned — or no row matches
on both fields and it fails with the AuthenticationError message at
status 401 (distinct from the 400 validation failure) leaving the
state unchanged. -/
theorem login_spec (d : ReqData) (st : ServerState)
    (hfio : truthy (dget d "fio") = true)
    (hphone : truthy (dget d "phone") = true) :
    ((∃ u ∈ st.db.users, u.fio = dget d "fio" ∧ u.phone = dget d "phone") →
       ∃ u, u ∈ st.db.users ∧ u.fio = dget d "fio" ∧ u.phone = dget d "phone" ∧
         api_login d st = ({ st with session := some u.id }, .ok u.id)) ∧
    ((∀ u ∈ st.db.users, ¬(u.fio = dget d "fio" ∧ u.phone = dget d "phone")) →
       api_login d st = (st, .err 401 authFailMsg)) := by
  constructor
  · intro hex
    have hsome : (st.db.users.find?
        (fun u => u.fio == dget d "fio" && u.phone == dget d "phone")).isSome := by
      rw [List.find?_isSome]
      obtain ⟨u, hu, h1, h2⟩ := hex
      exact ⟨u, hu, by simp [h1, h2]⟩
    obtain ⟨row, hrow⟩ := Option.isSome_iff_exists.mp hsome
    have hp := List.find?_some hrow
    have hm := List.mem_of_find?_eq_some hrow
    simp only [Bool.and_eq_true, beq_iff_eq] at hp
    refine ⟨row, hm, hp.1, hp.2, ?_⟩
    unfold api_login
    simp [hfio, hphone, hrow]
  · intro hall
    have hnone : st.db.users.find?
        (fun u => u.fio == dget d "fio" && u.phone == dget d "phone") = none := by
      rw [List.find?_eq_none]
      intro u hu
      have := hall u hu
      simp only [Bool.and_eq_true, beq_iff_eq]
      tauto
    unfold api_login
    simp [hfio, hphone, hnone]

/-- Closed witness for C5: on a one-row state, a matching login binds
the session to id 1, and (applying the theorem at a second input) a
wrong phone fails with 401. -/
theorem login_spec_witness :
    (∃ u, u ∈ ([⟨1, some "Ann Lee", some "+1000", none, none, none, none, none⟩] : List UserRow) ∧
       u.fio = dget [("fio", some "Ann Lee"), ("phone", some "+1000")] "fio" ∧
       u.phone = dget [("fio", some "Ann Lee"), ("phone", some "+1000")] "phone" ∧
       api_login [("fio", some "Ann Lee"), ("phone", some "+1000")]
           ⟨⟨[⟨1, some "Ann Lee", some "+1000", none, none, none, none, none⟩], 2⟩, none⟩ =
         (⟨⟨[⟨1, some "Ann Lee", some "+1000", none, none, none, none, none⟩], 2⟩, some u.id⟩,
           .ok u.id)) ∧
    api_login [("fio", some "Ann Lee"), ("phone", some "+9999")]
        ⟨⟨[⟨1, some "Ann Lee", some "+1000", none, none, none, none, none⟩], 2⟩, none⟩ =
      (⟨⟨[⟨1, some "Ann Lee", some "+1000", none, none, none, none, none⟩], 2⟩, none⟩,
        .err 401 authFailMsg) :=
  ⟨(login_spec [("fio", some "Ann Lee"), ("phone", some "+1000")]
        ⟨⟨[⟨1, some "Ann Lee", some "+1000", none, none, none, none, none⟩], 2⟩, none⟩
        (by decide) (by decide)).1
      ⟨⟨1, some "Ann Lee", some "+1000", none, none, none, none, none⟩, by decide, by decide, by decide⟩,
   (login_spec [("fio", some "Ann Lee"), ("phone", some "+9999")]
        ⟨⟨[⟨1, some "Ann Lee", some "+1000", none, none, none, none, none⟩], 2⟩, none⟩
        (by decide) (by decide)).2 (by decide)⟩

/-- C6: getProfile with no session fails 401 (unauthenticated); with
a session bound to a positive id whose row is absent it fails 404
(not a crash); and with the row present (uniquely, by id) it returns
exactly that row's stored fields and nothing else. -/
theorem profile_spec (st : ServerState) :
    (st.session = none → api_profile st = .err 401 unauthMsg) ∧
    (∀ uid, st.session = some uid → uid ≠ 0 →
       (∀ u ∈ st.db.users, u.id ≠ uid) → api_profile st = .err 404 notFoundMsg) ∧
    (∀ uid u, st.session = some uid → uid ≠ 0 → u ∈ st.db.users → u.id = uid →
       (∀ v ∈ st.db.users, v.id = uid → v = u) →
       api_profile st = .ok (toProfile u)) := by
  refine ⟨?_, ?_, ?_⟩
  · intro h
    unfold api_profile
    rw [h]
  · intro uid hs h0 habs
    have hnone : st.db.users.find? (fun u => u.id == uid) = none := by
      rw [List.find?_eq_none]
      intro u hu
      simpa using habs u hu
    unfold api_profile
    rw [hs]
    simp [h0, hnone]
  · intro uid u hs h0 hu hid huniq
    have hsome : (st.db.users.find? (fun v => v.id == uid)).isSome := by
      rw [List.find?_isSome]
      exact ⟨u, hu, by simp [hid]⟩
    obtain ⟨row, hrow⟩ := Option.isSome_iff_exists.mp hsome
    have hp := List.find?_some hrow
    have hm := List.mem_of_find?_eq_some hrow
    simp only [beq_iff_eq] at hp
    have hru : row = u := huniq row hm hp
    unfold api_profile
    rw [hs]
    simp [h0, hrow, hru]

/-- Closed witness for C6: the three branches exercised on concrete
states (no session; dangling session id 7; session id 1 with its row
present). -/
theorem profile_spec_witness :
    api_profile ⟨⟨[], 1⟩, none⟩ = .err 401 unauthMsg ∧
    api_profile ⟨⟨[], 1⟩, some 7⟩ = .err 404 notFoundMsg ∧
    api_profile ⟨⟨[⟨1, some "Ann Lee", some "+1000", none, none, none, none, none⟩], 2⟩, some 1⟩ =
      .ok (toProfile ⟨1, some "Ann Lee", some "+1000", none, none, none, none, none⟩) :=
  ⟨(profile_spec _).1 rfl,
   (profile_spec _).2.1 7 rfl (by decide) (by decide),
   (profile_spec _).2.2 1 ⟨1, some "Ann Lee", some "+1000", none, none, none, none, none⟩
     rfl (by decide) (by decide) rfl (by decide)⟩


/-- The UPDATE statement never touches the id column. -/
lemma applyUpdate_id (d : ReqData) (u : UserRow) : (applyUpdate d u).id = u.id := rfl

/-- Selecting by id after the UPDATE finds the updated row, when the
id identifies the row uniquely. -/
lemma find_after_update (d : ReqData) (uid : Nat) (l : List UserRow) (u : UserRow)
    (hu : u ∈ l) (hid : u.id = uid)
    (huniq : ∀ v ∈ l, v.id = uid → v = u) :
    (l.map (fun v => if v.id = uid then applyUpdate d v else v)).find?
        (fun v => v.id == uid) = some (applyUpdate d u) := by
  rw [List.find?_map]
  have hcomp : ((fun v : UserRow => v.id == uid) ∘
      fun v => if v.id = uid then applyUpdate d v else v) = (fun v => v.id == uid) := by
    funext v
    by_cases h : v.id = uid
    · simp [Function.comp, h, applyUpdate_id]
    · simp [Function.comp, h]
  rw [hcomp]
  have hbase : l.find? (fun v => v.id == uid) = some u := by
    have hsome : (l.find? (fun v => v.id == uid)).isSome := by
      rw [List.find?_isSome]
      exact ⟨u, hu, by simp [hid]⟩
    obtain ⟨row, hrow⟩ := Option.isSome_iff_exists.mp hsome
    have hp := List.find?_some hrow
    have hm := List.mem_of_find?_eq_some hrow
    simp only [beq_iff_eq] at hp
    rw [hrow, huniq row hm hp]
  rw [hbase]
  simp [hid]

/-- Counterexample for C2 as stated: with the phone UNIQUE
constraint of the schema in force, writing Bob's phone onto Ann's row
does not succeed — the UPDATE raises an unhandled IntegrityError
(crash, HTTP 500), nothing is written, and the unchanged state still
has distinct phones on the two rows. -/
theorem update_no_unique_recheck_claim_false :
    api_profile_update [("phone", some "+2000")]
        ⟨⟨[⟨1, some "Ann Lee", some "+1000", none, none, none, none, none⟩,
           ⟨2, some "Bob", some "+2000", none, none, none, none, none⟩], 3⟩, some 1⟩ =
      (⟨⟨[⟨1, some "Ann Lee", some "+1000", none, none, none, none, none⟩,
          ⟨2, some "Bob", some "+2000", none, none, none, none, none⟩], 3⟩, some 1⟩, .crash) ∧
    (api_profile_update [("phone", some "+2000")]
        ⟨⟨[⟨1, some "Ann Lee", some "+1000", none, none, none, none, none⟩,
           ⟨2, some "Bob", some "+2000", none, none, none, none, none⟩], 3⟩, some 1⟩).2 ≠
      ApiResult.ok (toProfile (applyUpdate [("phone", some "+2000")]
        ⟨1, some "Ann Lee", some "+1000", none, none, none, none, none⟩)) := by
  refine ⟨by decide, ?_⟩
  decide

/-- C2 amended: the handler never re-validates phone uniqueness at
the application level (it issues the UPDATE unconditionally), but on
any state with two rows of distinct ids, an update authenticated as
the first row that writes the second row's non-null phone is rejected
by the schema's UNIQUE constraint: the call crashes with an unhandled
IntegrityError (no ordinary error response), nothing is written, and
no state with two rows sharing that phone is produced. -/
theorem update_phone_unique_rejected (st : ServerState) (u1 u2 : UserRow) (p : String)
    (h1 : u1 ∈ st.db.users) (h2 : u2 ∈ st.db.users)
    (hne : u1.id ≠ u2.id) (hs : st.session = some u1.id) (h0 : u1.id ≠ 0)
    (hp : u2.phone = some p) :
    api_profile_update [("phone", u2.phone)] st = (st, .crash) := by
  have hf : hasUpdateField [("phone", u2.phone)] = true := rfl
  have hk : hasKey [("phone", u2.phone)] "phone" = true := rfl
  have hd : dget [("phone", u2.phone)] "phone" = some p := by
    rw [← hp]
    rfl
  have htgt : st.db.users.any (fun t => t.id == u1.id) = true :=
    List.any_eq_true.mpr ⟨u1, h1, by simp⟩
  have hother : st.db.users.any (fun v => v.id != u1.id && v.phone == some p) = true :=
    List.any_eq_true.mpr ⟨u2, h2, by simp [hp, Ne.symm hne]⟩
  have hconf : phoneConflict [("phone", u2.phone)] u1.id st.db.users = true := by
    unfold phoneConflict
    rw [hd]
    simp [htgt, hother, hk]
  unfold api_profile_update
  rw [hs]
  simp [h0, hf, hconf]

/-- Closed witness for C2's amended theorem: on a concrete two-row
state, writing row 2's phone onto row 1 crashes with the constraint
violation and leaves the state unchanged. -/
theorem update_phone_unique_rejected_witness :
    api_profile_update [("phone", some "+2000")]
        ⟨⟨[⟨1, some "Ann Lee", some "+1000", none, none, none, none, none⟩,
           ⟨2, some "Bob", some "+2000", none, none, none, none, none⟩], 3⟩, some 1⟩ =
      (⟨⟨[⟨1, some "Ann Lee", some "+1000", none, none, none, none, none⟩,
          ⟨2, some "Bob", some "+2000", none, none, none, none, none⟩], 3⟩, some 1⟩, .crash) :=
  update_phone_unique_rejected
    ⟨⟨[⟨1, some "Ann Lee", some "+1000", none, none, none, none, none⟩,
       ⟨2, some "Bob", some "+2000", none, none, none, none, none⟩], 3⟩, some 1⟩
    ⟨1, some "Ann Lee", some "+1000", none, none, none, none, none⟩
    ⟨2, some "Bob", some "+2000", none, none, none, none, none⟩
    "+2000" (by decide) (by decide) (by decide) rfl (by decide) rfl

/-- Counterexample for C7 as stated: the claim quantifies over every
authenticated update with a recognized field, but a phone write that
collides with another row's phone is rejected by the UNIQUE
constraint — the call crashes with an unhandled IntegrityError, no
field of the session row is changed, and no updated profile is
returned. -/
theorem update_frame_claim_false :
    api_profile_update [("phone", some "+6000")]
        ⟨⟨[⟨1, some "Carol", some "+5000", none, none, none, none, none⟩,
           ⟨2, some "Dave", some "+6000", none, none, none, none, none⟩], 3⟩, some 1⟩ =
      (⟨⟨[⟨1, some "Carol", some "+5000", none, none, none, none, none⟩,
          ⟨2, some "Dave", some "+6000", none, none, none, none, none⟩], 3⟩, some 1⟩, .crash) ∧
    (api_profile_update [("phone", some "+6000")]
        ⟨⟨[⟨1, some "Carol", some "+5000", none, none, none, none, none⟩,
           ⟨2, some "Dave", some "+6000", none, none, none, none, none⟩], 3⟩, some 1⟩).2 ≠
      ApiResult.ok (toProfile (applyUpdate [("phone", some "+6000")]
        ⟨1, some "Carol", some "+5000", none, none, none, none, none⟩)) := by
  refine ⟨by decide, ?_⟩
  decide

/-- C7 amended: an authenticated update naming at least one
recognized field and not violating the phone UNIQUE constraint (it
does not write a non-null phone already stored by a different row),
on a state whose session row exists (uniquely, by id), changes only
that row: the new table is the old one with exactly the session row
replaced, the replacement agrees with the old row on every
unsupplied column and carries the supplied value on every supplied
column, the returned profile is the replacement's, and a subsequent
getProfile returns the same updated profile.  (A violating phone
write instead crashes with an unhandled IntegrityError and writes
nothing.) -/
theorem update_frame (d : ReqData) (st : ServerState) (uid : Nat) (u : UserRow)
    (hs : st.session = some uid) (h0 : uid ≠ 0)
    (hf : hasUpdateField d = true)
    (hnc : phoneConflict d uid st.db.users = false)
    (hu : u ∈ st.db.users) (hid : u.id = uid)
    (huniq : ∀ v ∈ st.db.users, v.id = uid → v = u) :
    api_profile_update d st =
      (⟨⟨(st.db.users.map (fun v => if v = u then applyUpdate d u else v)), st.db.nextId⟩,
        st.session⟩, .ok (toProfile (applyUpdate d u))) ∧
    (applyUpdate d u).id = u.id ∧
    (applyUpdate d u).fio = (if hasKey d "fio" then dget d "fio" else u.fio) ∧
    (applyUpdate d u).phone = (if hasKey d "phone" then dget d "phone" else u.phone) ∧
    (applyUpdate d u).email = (if hasKey d "email" then dget d "email" else u.email) ∧
    (applyUpdate d u).cardNumber =
      (if hasKey d "cardNumber" then dget d "cardNumber" else u.cardNumber) ∧
    (applyUpdate d u).dob = (if hasKey d "dob" then dget d "dob" else u.dob) ∧
    (applyUpdate d u).gender = (if hasKey d "gender" then dget d "gender" else u.gender) ∧
    (applyUpdate d u).avatar = (if hasKey d "avatar" then dget d "avatar" else u.avatar) ∧
    api_profile (api_profile_update d st).1 = .ok (toProfile (applyUpdate d u)) := by
  have hmap : st.db.users.map (fun v => if v.id = uid then applyUpdate d v else v)
      = st.db.users.map (fun v => if v = u then applyUpdate d u else v) := by
    apply List.map_congr_left
    intro v hv
    by_cases h : v.id = uid
    · have hvu : v = u := huniq v hv h
      subst hvu
      simp [h]
    · have hvu : v ≠ u := fun he => h (he ▸ hid)
      simp [h, hvu]
  have hfind := find_after_update d uid st.db.users u hu hid huniq
  have hmain : api_profile_update d st =
      (⟨⟨(st.db.users.map (fun v => if v = u then applyUpdate d u else v)), st.db.nextId⟩,
        st.session⟩, .ok (toProfile (applyUpdate d u))) := by
    unfold api_profile_update
    rw [hs]
    simp [h0, hf, hnc, hs, -List.find?_map]
    rw [hfind]
    simp [hmap]
  refine ⟨hmain, rfl, rfl, rfl, rfl, rfl, rfl, rfl, rfl, ?_⟩
  rw [hmain]
  unfold api_profile
  rw [hs]
  simp [h0, ← hmap, hfind, -List.find?_map]

/-- Closed witness for C7: updateProfile with only avatar "x" on a
concrete two-row state changes exactly the session row's avatar,
leaves Bob's row untouched, and getProfile then reflects it. -/
theorem update_frame_witness :
    api_profile_update [("avatar", some "x")]
        ⟨⟨[⟨1, some "Ann Lee", some "+1000", none, none, none, none, none⟩,
           ⟨2, some "Bob", some "+2000", none, none, none, none, none⟩], 3⟩, some 1⟩ =
      (⟨⟨[⟨1, some "Ann Lee", some "+1000", none, none, none, none, some "x"⟩,
          ⟨2, some "Bob", some "+2000", none, none, none, none, none⟩], 3⟩, some 1⟩,
        .ok ⟨1, some "Ann Lee", some "+1000", none, none, none, none, some "x"⟩) ∧
    api_profile (api_profile_update [("avatar", some "x")]
        ⟨⟨[⟨1, some "Ann Lee", some "+1000", none, none, none, none, none⟩,
           ⟨2, some "Bob", some "+2000", none, none, none, none, none⟩], 3⟩, some 1⟩).1 =
      .ok ⟨1, some "Ann Lee", some "+1000", none, none, none, none, some "x"⟩ := by
  have h := update_frame [("avatar", some "x")]
    ⟨⟨[⟨1, some "Ann Lee", some "+1000", none, none, none, none, none⟩,
       ⟨2, some "Bob", some "+2000", none, none, none, none, none⟩], 3⟩, some 1⟩
    1 ⟨1, some "Ann Lee", some "+1000", none, none, none, none, none⟩
    rfl (by decide) (by decide) (by decide) (by decide) rfl (by decide)
  exact ⟨h.1.trans (by decide), h.2.2.2.2.2.2.2.2.2.trans (by decide)⟩

/-- C10: unlike getProfile, updateProfile has no 404 branch: with an
active session whose row is absent and at least one recognized field
supplied, the post-update SELECT finds no row, the unguarded
conversion is reached (crash), and no 404 error response is
produced. -/
theorem update_missing_row (d : ReqData) (st : ServerState) (uid : Nat)
    (hs : st.session = some uid) (h0 : uid ≠ 0)
    (habs : ∀ u ∈ st.db.users, u.id ≠ uid)
    (hf : hasUpdateField d = true) :
    (api_profile_update d st).2 = .crash ∧
    ∀ m, (api_profile_update d st).2 ≠ .err 404 m := by
  have hnone : (st.db.users.map
      (fun v => if v.id = uid then applyUpdate d v else v)).find?
        (fun v => v.id == uid) = none := by
    rw [List.find?_eq_none]
    intro x hx
    obtain ⟨v, hv, rfl⟩ := List.mem_map.mp hx
    have h := habs v hv
    simp [h]
  have ha : st.db.users.any (fun t => t.id == uid) = false := by
    rw [List.any_eq_false]
    intro t ht
    simpa using habs t ht
  have hconf : phoneConflict d uid st.db.users = false := by
    unfold phoneConflict
    rw [ha]
    simp
  have hcrash : (api_profile_update d st).2 = ApiResult.crash := by
    unfold api_profile_update
    rw [hs]
    simp [h0, hf, hconf, hnone, -List.find?_map]
  refine ⟨hcrash, ?_⟩
  intro m
  rw [hcrash]
  intro he
  exact ApiResult.noConfusion he

/-- Closed witness for C10: a dangling session (id 5 over an empty
table) with an avatar update crashes instead of returning a 404. -/
theorem update_missing_row_witness :
    (api_profile_update [("avatar", some "x")] ⟨⟨[], 1⟩, some 5⟩).2 = .crash ∧
    (api_profile_update [("avatar", some "x")] ⟨⟨[], 1⟩, some 5⟩).2 ≠ .err 404 notFoundMsg :=
  ⟨(update_missing_row [("avatar", some "x")] ⟨⟨[], 1⟩, some 5⟩ 5
      rfl (by decide) (by decide) (by decide)).1,
   (update_missing_row [("avatar", some "x")] ⟨⟨[], 1⟩, some 5⟩ 5
      rfl (by decide) (by decide) (by decide)).2 notFoundMsg⟩

/-- Dropping the pairs with unrecognized keys does not change what
`find?` sees for a recognized key. -/
lemma find_filter_keys (d : ReqData) (k : String) (hk : updKeys.contains k = true) :
    (d.filter (fun p => updKeys.contains p.1)).find? (fun p => p.1 == k)
      = d.find? (fun p => p.1 == k) := by
  induction d with
  | nil => rfl
  | cons p rest ih =>
    rw [List.filter_cons]
    by_cases h : p.1 = k
    · have hc : updKeys.contains p.1 = true := by rw [h]; exact hk
      rw [if_pos hc]
      simp [List.find?_cons, h]
    · have hb : (p.1 == k) = false := by simp [h]
      cases hc : updKeys.contains p.1 with
      | false => simp [List.find?_cons, hb, ih, -List.find?_filter, -List.elem_eq_mem]
      | true => simp [List.find?_cons, hb, ih, -List.find?_filter, -List.elem_eq_mem]

/-- Dropping the pairs with unrecognized keys does not change key
presence for a recognized key. -/
lemma hasKey_filter (d : ReqData) (k : String) (hk : updKeys.contains k = true) :
    hasKey (d.filter (fun p => updKeys.contains p.1)) k = hasKey d k := by
  induction d with
  | nil => rfl
  | cons p rest ih =>
    rw [List.filter_cons]
    by_cases h : p.1 = k
    · have hc : updKeys.contains p.1 = true := by rw [h]; exact hk
      rw [if_pos hc]
      simp [hasKey, List.any_cons, h]
    · have hb : (p.1 == k) = false := by simp [h]
      cases hc : updKeys.contains p.1 with
      | false =>
        simp [hasKey, List.any_cons, hb, -List.any_filter, -List.elem_eq_mem]
        exact ih
      | true =>
        simp [hasKey, List.any_cons, hb, -List.any_filter, -List.elem_eq_mem]
        exact ih

/-- Dropping the pairs with unrecognized keys does not change the
value read for a recognized key. -/
lemma dget_filter (d : ReqData) (k : String) (hk : updKeys.contains k = true) :
    dget (d.filter (fun p => updKeys.contains p.1)) k = dget d k := by
  unfold dget
  rw [find_filter_keys d k hk]

/-- `List.any` over the seven recognized keys, expanded. -/
lemma updKeys_any_expand (g : String → Bool) :
    updKeys.any g =
      (g "fio" || (g "phone" || (g "email" || (g "cardNumber" ||
        (g "dob" || (g "gender" || (g "avatar" || false))))))) := rfl

/-- The emptiness test of the built field list only looks at the
recognized keys. -/
lemma hasUpdateField_filter (d : ReqData) :
    hasUpdateField (d.filter (fun p => updKeys.contains p.1)) = hasUpdateField d := by
  unfold hasUpdateField
  rw [updKeys_any_expand, updKeys_any_expand]
  rw [hasKey_filter d "fio" rfl, hasKey_filter d "phone" rfl, hasKey_filter d "email" rfl,
    hasKey_filter d "cardNumber" rfl, hasKey_filter d "dob" rfl,
    hasKey_filter d "gender" rfl, hasKey_filter d "avatar" rfl]

/-- The UPDATE effect only looks at the recognized keys. -/
lemma applyUpdate_filter (d : ReqData) (u : UserRow) :
    applyUpdate (d.filter (fun p => updKeys.contains p.1)) u = applyUpdate d u := by
  unfold applyUpdate
  rw [hasKey_filter d "fio" rfl, dget_filter d "fio" rfl,
    hasKey_filter d "phone" rfl, dget_filter d "phone" rfl,
    hasKey_filter d "email" rfl, dget_filter d "email" rfl,
    hasKey_filter d "cardNumber" rfl, dget_filter d "cardNumber" rfl,
    hasKey_filter d "dob" rfl, dget_filter d "dob" rfl,
    hasKey_filter d "gender" rfl, dget_filter d "gender" rfl,
    hasKey_filter d "avatar" rfl, dget_filter d "avatar" rfl]

/-- The UNIQUE-constraint check only looks at the recognized phone key. -/
lemma phoneConflict_filter (d : ReqData) (uid : Nat) (users : List UserRow) :
    phoneConflict (d.filter (fun p => updKeys.contains p.1)) uid users =
      phoneConflict d uid users := by
  unfold phoneConflict
  rw [hasKey_filter d "phone" rfl, dget_filter d "phone" rfl]

/-- C8: updateProfile ignores every key outside the recognized set
(the whole call behaves as if the request were first filtered down
to the recognized keys), and an authenticated call whose filtered
field set is empty fails with the nothing-to-update ValidationError
message at status 400, leaving the state unchanged. -/
theorem update_unrecognized_keys (d : ReqData) (st : ServerState) :
    api_profile_update d st =
      api_profile_update (d.filter (fun p => updKeys.contains p.1)) st ∧
    (∀ uid, st.session = some uid → uid ≠ 0 → hasUpdateField d = false →
       api_profile_update d st = (st, .err 400 nothingToUpdateMsg)) := by
  constructor
  · unfold api_profile_update
    cases hst : st.session with
    | none => rfl
    | some uid =>
      simp only [hasUpdateField_filter, applyUpdate_filter, phoneConflict_filter]
  · intro uid hs hz hf
    unfold api_profile_update
    rw [hs]
    simp [hz, hf]

/-- Closed witness for C8: an unrecognized key "junk" next to a
recognized avatar key is ignored (filtering it away gives the same
call), and a call carrying only "junk" fails with nothing-to-update. -/
theorem update_unrecognized_keys_witness :
    api_profile_update [("junk", some "1"), ("avatar", some "x")]
        ⟨⟨[⟨1, some "Ann Lee", some "+1000", none, none, none, none, none⟩], 2⟩, some 1⟩ =
      api_profile_update ([("junk", some "1"), ("avatar", some "x")].filter
        (fun p => updKeys.contains p.1))
        ⟨⟨[⟨1, some "Ann Lee", some "+1000", none, none, none, none, none⟩], 2⟩, some 1⟩ ∧
    api_profile_update [("junk", some "1")]
        ⟨⟨[⟨1, some "Ann Lee", some "+1000", none, none, none, none, none⟩], 2⟩, some 1⟩ =
      (⟨⟨[⟨1, some "Ann Lee", some "+1000", none, none, none, none, none⟩], 2⟩, some 1⟩,
        .err 400 nothingToUpdateMsg) :=
  ⟨(update_unrecognized_keys [("junk", some "1"), ("avatar", some "x")]
      ⟨⟨[⟨1, some "Ann Lee", some "+1000", none, none, none, none, none⟩], 2⟩, some 1⟩).1,
   (update_unrecognized_keys [("junk", some "1")]
      ⟨⟨[⟨1, some "Ann Lee", some "+1000", none, none, none, none, none⟩], 2⟩, some 1⟩).2
     1 rfl (by decide) (by decide)⟩

end S7Airlines
